import Mathlib

/-!
Verification development for the dragoneye-node client library.

The development shallowly embeds the two core subsystems of the library:

* the media factory and validator (`src/media.ts`): MIME-family validation,
  the construction entry paths `fromBlob` / `fromArrayBuffer` /
  `fromUint8Array` / `fromBase64`, and the two base64 decode branches;
* the prediction-task orchestration engine (`classification.ts`):
  `_beginPredictionTask`, `_uploadMediaToPredictionTask`, `_initiatePredict`,
  `getStatus`, `_waitForPredictionTaskCompletion`, `_getResultsUnified` and
  the top-level `_predictUnified`, together with the status classification
  helpers `isTaskSuccessful` / `isTaskFailed` / `isTaskComplete`.

JavaScript strings are modelled as Lean `String`; the JS string operations
used by the source (`trim`, `startsWith`) are given executable models over
the character list.  The HTTP transport (`fetch`) is an external collaborator
and is modelled by an environment that fixes, per endpoint, whether the call
rejects at transport level or returns a response with an HTTP status; every
network call performed is recorded in a trace of endpoints.  Time advances
only inside `sleep`, by the polling interval, which is the standard discrete
model of `performance.now` for this loop.  The unbounded polling loop is
bounded by explicit fuel; fuel exhaustion is a distinguished modelling
artifact that none of the theorems rely on.
-/

/-- Model of JavaScript `String.prototype.trim`: remove leading and trailing
whitespace characters. -/
def jsTrim (s : String) : String :=
  String.mk (((s.data.dropWhile Char.isWhitespace).reverse.dropWhile
    Char.isWhitespace).reverse)

/-- Model of JavaScript `s.startsWith(p)`. -/
def jsStartsWith (s p : String) : Bool :=
  p.data.isPrefixOf s.data

-- ---------------------------------------------------------------------------
-- common.ts
-- ---------------------------------------------------------------------------

/-- `PREDICTED_STATUS` from common.ts: the single success literal. -/
def PREDICTED_STATUS : String := "predicted"

/-- `FAILED_STATUS_LITERAL` models `FAILED_STATUS_PREFIX` from common.ts:
the literal whose prefix-match classifies a state as failed. -/
def FAILED_STATUS_LITERAL : String := "failed"

/-- `PredictionType` from common.ts. -/
inductive PredictionType where
  | image
  | video
deriving DecidableEq

-- ---------------------------------------------------------------------------
-- classification.ts : status classification helpers
-- ---------------------------------------------------------------------------

/-- `isTaskSuccessful` (classification.ts): exact equality with the
`PREDICTED_STATUS` literal. -/
def isTaskSuccessful (status : String) : Bool :=
  status == PREDICTED_STATUS

/-- `isTaskFailed` (classification.ts): `status.startsWith(FAILED_STATUS_PREFIX)`. -/
def isTaskFailed (status : String) : Bool :=
  jsStartsWith status FAILED_STATUS_LITERAL

/-- `isTaskComplete` (classification.ts): successful or failed. -/
def isTaskComplete (status : String) : Bool :=
  isTaskSuccessful status || isTaskFailed status

-- ---------------------------------------------------------------------------
-- media.ts : MIME classification
-- ---------------------------------------------------------------------------

/-- `isImageMime` (media.ts): `mime.startsWith("image/")`. -/
def isImageMime (mime : String) : Bool :=
  jsStartsWith mime "image/"

/-- `isVideoMime` (media.ts): `mime.startsWith("video/")`. -/
def isVideoMime (mime : String) : Bool :=
  jsStartsWith mime "video/"

/-- `isImageOrVideo` (media.ts).  The source also guards against non-string
values; in the embedding the argument is always a string. -/
def isImageOrVideo (mime : String) : Bool :=
  isImageMime mime || isVideoMime mime

-- ---------------------------------------------------------------------------
-- media.ts : data model
-- ---------------------------------------------------------------------------

/-- Model of a JS `Blob`: the byte payload plus the intrinsic MIME type
(`blob.type`, always a string, possibly empty). -/
structure Blob where
  data : List Nat
  type : String
deriving DecidableEq

/-- The two concrete Media variants of media.ts. -/
inductive MediaKind where
  | image
  | video
deriving DecidableEq

/-- A constructed Media instance: variant tag, verified MIME type, optional
display name, and the payload blob. -/
structure MediaInst where
  kind : MediaKind
  mimeType : String
  name : Option String
  blob : Blob
deriving DecidableEq

/-- `Media.prototype.toBlob` (media.ts): returns the held blob. -/
def toBlob (m : MediaInst) : Blob :=
  m.blob

-- ---------------------------------------------------------------------------
-- Error taxonomy (exceptions.ts) and raw platform errors
-- ---------------------------------------------------------------------------

/-- The library's typed error taxonomy (exceptions.ts). -/
inductive LibError where
  | predictionTaskBegin (msg : String)
  | predictionUpload (msg : String)
  | predictionTask (msg : String)
  | resultsUnavailable (msg : String)
  | incorrectMediaType (msg : String)
deriving DecidableEq

/-- A thrown JS value: either one of the library's typed errors, a raw
runtime `TypeError` (e.g. a property access on `undefined`), a raw platform
error propagating uncaught (e.g. a `fetch` rejection or an `atob` failure),
or the fuel-exhaustion modelling artifact for the unbounded polling loop. -/
inductive JsError where
  | lib (e : LibError)
  | typeError (msg : String)
  | raw (msg : String)
  | modelOutOfFuel
deriving DecidableEq

/-- Whether a thrown value belongs to the library's typed error taxonomy. -/
def JsError.inTaxonomy : JsError → Bool
  | .lib _ => true
  | _ => false

-- ---------------------------------------------------------------------------
-- media.ts : constructors and factories
-- ---------------------------------------------------------------------------

/-- The constructor name used by `enforceFamilyOrThrow` / `expectedFamilyText`
(`(ctor as Function).name` in the source). -/
def ctorName : MediaKind → String
  | .image => "Image"
  | .video => "Video"

/-- `expectedFamilyText` (media.ts). -/
def expectedFamilyText : MediaKind → String
  | .image => "image/*"
  | .video => "video/*"

/-- The `Image` subclass constructor (media.ts): re-validates that the MIME
type is `image/*` and otherwise throws `IncorrectMediaTypeError`. -/
def newImage (blob : Blob) (mimeType : String) (name : Option String) :
    Except JsError MediaInst :=
  if isImageMime mimeType then
    .ok ⟨.image, mimeType, name, blob⟩
  else
    .error (.lib (.incorrectMediaType
      ("Image requires image/* MIME; got \"" ++ mimeType ++ "\"")))

/-- The `Video` subclass constructor (media.ts). -/
def newVideo (blob : Blob) (mimeType : String) (name : Option String) :
    Except JsError MediaInst :=
  if isVideoMime mimeType then
    .ok ⟨.video, mimeType, name, blob⟩
  else
    .error (.lib (.incorrectMediaType
      ("Video requires video/* MIME; got \"" ++ mimeType ++ "\"")))

/-- `constructForThis` (media.ts): dispatch to the concrete subclass
constructor, which re-validates the family. -/
def constructForThis (kind : MediaKind) (blob : Blob) (mime : String)
    (name : Option String) : Except JsError MediaInst :=
  match kind with
  | .image => newImage blob mime name
  | .video => newVideo blob mime name

/-- `enforceFamilyOrThrow` (media.ts): the generic pre-dispatch family
check, keyed on the constructor identity. -/
def enforceFamilyOrThrow (kind : MediaKind) (mime : String) (ctx : String) :
    Except JsError Unit :=
  match kind with
  | .image =>
    if isImageMime mime then .ok ()
    else .error (.lib (.incorrectMediaType
      ("Invalid MIME type for Image." ++ ctx ++ ": \"" ++ mime ++
        "\". Expected image/*")))
  | .video =>
    if isVideoMime mime then .ok ()
    else .error (.lib (.incorrectMediaType
      ("Invalid MIME type for Video." ++ ctx ++ ": \"" ++ mime ++
        "\". Expected video/*")))

/-- `Media.fromBlob` (media.ts).  The candidate MIME is
`(mimeTypeOverride ?? blob.type ?? "").trim()`; a JS blob's `type` is always
a string, so the second `??` never fires and the candidate is the trimmed
override when present, else the trimmed intrinsic type. -/
def fromBlob (kind : MediaKind) (blob : Blob) (name : Option String)
    (mimeTypeOverride : Option String) : Except JsError MediaInst :=
  let candidate := jsTrim (mimeTypeOverride.getD blob.type)
  if !isImageOrVideo candidate then
    .error (.lib (.incorrectMediaType
      ("Invalid MIME type for " ++ ctorName kind ++ ".fromBlob: \"" ++
        (if candidate = "" then "(missing)" else candidate) ++
        "\". Expected " ++ expectedFamilyText kind)))
  else
    match enforceFamilyOrThrow kind candidate "fromBlob" with
    | .error e => .error e
    | .ok _ => constructForThis kind blob candidate name

/-- `Media.fromArrayBuffer` (media.ts): validates the given MIME string as
is (no trim) and wraps the buffer in a fresh blob. -/
def fromArrayBuffer (kind : MediaKind) (buf : List Nat) (mimeType : String)
    (name : Option String) : Except JsError MediaInst :=
  if !isImageOrVideo mimeType then
    .error (.lib (.incorrectMediaType
      ("Invalid MIME type for " ++ ctorName kind ++ ".fromArrayBuffer: \"" ++
        mimeType ++ "\". Expected " ++ expectedFamilyText kind)))
  else
    match enforceFamilyOrThrow kind mimeType "fromArrayBuffer" with
    | .error e => .error e
    | .ok _ => constructForThis kind ⟨buf, mimeType⟩ mimeType name

/-- `Media.fromUint8Array` (media.ts): validates the given MIME string as
is (no trim) and wraps the bytes in a fresh blob. -/
def fromUint8Array (kind : MediaKind) (u8 : List Nat) (mimeType : String)
    (name : Option String) : Except JsError MediaInst :=
  if !isImageOrVideo mimeType then
    .error (.lib (.incorrectMediaType
      ("Invalid MIME type for " ++ ctorName kind ++ ".fromUint8Array: \"" ++
        mimeType ++ "\". Expected " ++ expectedFamilyText kind)))
  else
    match enforceFamilyOrThrow kind mimeType "fromUint8Array" with
    | .error e => .error e
    | .ok _ => constructForThis kind ⟨u8, mimeType⟩ mimeType name

-- ---------------------------------------------------------------------------
-- Base64 decoding: the two branches of Media.fromBase64
-- ---------------------------------------------------------------------------

/-- The base64 alphabet value of a character, `none` for anything outside
the alphabet (including `=` and whitespace). -/
def b64Val (c : Char) : Option Nat :=
  if 'A' ≤ c ∧ c ≤ 'Z' then some (c.toNat - 65)
  else if 'a' ≤ c ∧ c ≤ 'z' then some (c.toNat - 71)
  else if '0' ≤ c ∧ c ≤ '9' then some (c.toNat + 4)
  else if c = '+' then some 62
  else if c = '/' then some 63
  else none

/-- Membership in the base64 alphabet. -/
def isB64 (c : Char) : Bool :=
  (b64Val c).isSome

/-- ASCII whitespace as skipped by the forgiving-base64 decode (TAB, LF,
FF, CR, SPACE). -/
def isB64Ws (c : Char) : Bool :=
  c = '\t' || c = '\n' || c = '\x0c' || c = '\r' || c = ' '

/-- Reassemble a sequence of sextet values into bytes.  A trailing group of
two or three sextets yields one or two bytes (the leftover bits are
discarded); a trailing single sextet yields nothing. -/
def sextetsToBytes : List Nat → List Nat
  | [v1, v2] => [v1 * 4 + v2 / 16]
  | [v1, v2, v3] => [v1 * 4 + v2 / 16, v2 % 16 * 16 + v3 / 4]
  | v1 :: v2 :: v3 :: v4 :: rest =>
      (v1 * 4 + v2 / 16) :: (v2 % 16 * 16 + v3 / 4) :: (v3 % 4 * 64 + v4) ::
        sextetsToBytes rest
  | _ => []

/-- Strip up to two trailing `=` characters, as the forgiving-base64
decode does when the input length is a multiple of four. -/
def dropPad (l : List Char) : List Char :=
  let l1 := if l.getLast? = some '=' then l.dropLast else l
  if l1.getLast? = some '=' then l1.dropLast else l1

/-- Decode every character through the alphabet, failing on the first
character outside it (the `InvalidCharacterError` behaviour of `atob`). -/
def decodeVals : List Char → Option (List Nat)
  | [] => some []
  | c :: cs =>
    match b64Val c, decodeVals cs with
    | some v, some vs => some (v :: vs)
    | _, _ => none

/-- Modelled from the spec: the browser branch of `Media.fromBase64` — the
global `atob` (WHATWG forgiving-base64 decode) followed by the
`charCodeAt` loop that turns the binary string into bytes.  `atob` strips
ASCII whitespace, strips up to two trailing `=` when the remaining length
is a multiple of four, rejects a remaining length of `4k+1` and any
character outside the alphabet, and otherwise decodes sextets to bytes. -/
def atobDecode (l : List Char) : Option (List Nat) :=
  let t1 := l.filter (fun c => !isB64Ws c)
  let t2 := if t1.length % 4 == 0 then dropPad t1 else t1
  if t2.length % 4 == 1 then none
  else (decodeVals t2).map sextetsToBytes

/-- Modelled from the spec: the Node branch of `Media.fromBase64` —
`Buffer.from(base64, "base64")`, which never throws: it ignores every
character outside the base64 alphabet (padding and whitespace included)
and decodes the surviving sextets, discarding leftover bits. -/
def bufferDecode (l : List Char) : List Nat :=
  sextetsToBytes (l.filterMap b64Val)

/-- `Media.fromBase64` (media.ts).  `hasAtob` is the runtime branch
condition `typeof globalThis.atob === "function"`. -/
def fromBase64 (kind : MediaKind) (base64 : String) (mimeType : String)
    (name : Option String) (hasAtob : Bool) : Except JsError MediaInst :=
  if !isImageOrVideo mimeType then
    .error (.lib (.incorrectMediaType
      ("Invalid MIME type for " ++ ctorName kind ++ ".fromBase64: \"" ++
        mimeType ++ "\". Expected " ++ expectedFamilyText kind)))
  else
    match enforceFamilyOrThrow kind mimeType "fromBase64" with
    | .error e => .error e
    | .ok _ =>
      match (if hasAtob then atobDecode base64.data
             else some (bufferDecode base64.data)) with
      | none => .error (.raw "InvalidCharacterError: atob failed to decode")
      | some u8 => fromUint8Array kind u8 mimeType name

/-- The trailing run of `=` characters of a candidate base64 string. -/
def b64Pad (l : List Char) : Nat :=
  (l.reverse.takeWhile (fun c => c == '=')).length

/-- The candidate base64 string with its trailing `=` characters removed. -/
def b64Body (l : List Char) : List Char :=
  (l.reverse.dropWhile (fun c => c == '=')).reverse

/-- Canonical (RFC 4648) base64 validity: alphabet characters followed by
at most two `=` of padding, total length a multiple of four. -/
def validBase64 (l : List Char) : Bool :=
  b64Pad l ≤ 2 && l.length % 4 == 0 && (b64Body l).all isB64

/-- Whether a Media instance's MIME type belongs to the family of its
variant. -/
def mimeFamilyMatches (kind : MediaKind) (mime : String) : Bool :=
  match kind with
  | .image => isImageMime mime
  | .video => isVideoMime mime

-- ---------------------------------------------------------------------------
-- classification.ts : API shapes
-- ---------------------------------------------------------------------------

/-- `PresignedPostRequest` (classification.ts). -/
structure PresignedPostRequest where
  url : String
  fields : List (String × String)
deriving DecidableEq

/-- `MediaUploadUrl` (classification.ts). -/
structure MediaUploadUrl where
  blob_path : String
  presigned_post_request : PresignedPostRequest
deriving DecidableEq

/-- `PredictionTaskBeginResponse` (classification.ts). -/
structure PredictionTaskBeginResponse where
  prediction_task_uuid : String
  prediction_type : PredictionType
  signed_urls : List MediaUploadUrl
deriving DecidableEq

/-- `PredictionTaskStatusResponse` (models.ts). -/
structure PredictionTaskStatusResponse where
  prediction_task_uuid : String
  prediction_type : PredictionType
  status : String
deriving DecidableEq

/-- The server's results body, opaque to the orchestrator until augmented. -/
structure ResultsPayload where
  payload : String
deriving DecidableEq

/-- A results body after `_getResultsUnified` merges the task UUID onto it. -/
structure AugmentedResults where
  payload : String
  prediction_task_uuid : String
deriving DecidableEq

-- ---------------------------------------------------------------------------
-- Transport model
-- ---------------------------------------------------------------------------

/-- The network endpoints the orchestrator can call; each performed `fetch`
is recorded as one entry in a trace. -/
inductive Endpoint where
  | beginTask
  | upload
  | initiate
  | status
  | results
deriving DecidableEq

/-- The outcome the transport collaborator supplies for one `fetch` call:
either a transport-level rejection or a response with `ok`, numeric status,
status text, and a decoded body. -/
inductive FetchOutcome (β : Type) where
  | fail (err : String)
  | resp (ok : Bool) (status : Nat) (statusText : String) (body : β)
deriving DecidableEq

/-- The environment: fixes the transport outcome of every endpoint; the
status endpoint's outcome may vary with the poll index. -/
structure Env where
  beginOutcome : FetchOutcome PredictionTaskBeginResponse
  uploadOutcome : FetchOutcome Unit
  initiateOutcome : FetchOutcome Unit
  statusOutcome : Nat → FetchOutcome PredictionTaskStatusResponse
  resultsOutcome : FetchOutcome ResultsPayload

-- ---------------------------------------------------------------------------
-- classification.ts : orchestration stages
-- ---------------------------------------------------------------------------

/-- `_beginPredictionTask` (classification.ts): POST to the begin endpoint;
a transport rejection or a non-ok response becomes `PredictionTaskBeginError`. -/
def _beginPredictionTask (env : Env) :
    List Endpoint × Except JsError PredictionTaskBeginResponse :=
  ([.beginTask],
    match env.beginOutcome with
    | .fail _ => .error (.lib (.predictionTaskBegin
        "Error beginning prediction task:"))
    | .resp ok status statusText body =>
      if ok then .ok body
      else .error (.lib (.predictionTaskBegin
        ("Error beginning prediction task: " ++ toString status ++ " " ++
          statusText))))

/-- `_uploadMediaToPredictionTask` (classification.ts).  The caller passes
`beginResp.signed_urls[0]`, which in JS is `undefined` when the array is
empty; the body then evaluates `signedUrl.presigned_post_request.fields`
before any fetch, so an absent target raises a raw runtime `TypeError` and
no upload call is performed.  Otherwise a transport rejection or a non-ok
response becomes `PredictionUploadError`. -/
def _uploadMediaToPredictionTask (env : Env) (media : MediaInst)
    (signedUrl : Option MediaUploadUrl) :
    List Endpoint × Except JsError Unit :=
  match signedUrl with
  | none =>
    ([], .error (.typeError
      "Cannot read properties of undefined (reading presigned_post_request)"))
  | some _ =>
    ([.upload],
      match env.uploadOutcome with
      | .fail _ => .error (.lib (.predictionUpload
          "Error uploading media to prediction task:"))
      | .resp ok status statusText _ =>
        if ok then .ok ()
        else .error (.lib (.predictionUpload
          ("Error uploading media to prediction task: " ++ toString status ++
            " " ++ statusText))))

/-- `_initiatePredict` (classification.ts): POST to the predict endpoint; a
transport rejection or a non-ok response becomes `PredictionTaskError`. -/
def _initiatePredict (env : Env) (modelName : String) (uuid : String) :
    List Endpoint × Except JsError Unit :=
  ([.initiate],
    match env.initiateOutcome with
    | .fail _ => .error (.lib (.predictionTask "Error initiating prediction:"))
    | .resp ok status statusText _ =>
      if ok then .ok ()
      else .error (.lib (.predictionTask
        ("Error initiating prediction: " ++ toString status ++ " " ++
          statusText))))

/-- `getStatus` (classification.ts).  Note: unlike every sibling stage, the
source wraps no try/catch around this `fetch`; a transport-level rejection
propagates as the raw platform error.  Only a non-ok response becomes
`PredictionTaskError`. -/
def getStatus (env : Env) (n : Nat) :
    List Endpoint × Except JsError PredictionTaskStatusResponse :=
  ([.status],
    match env.statusOutcome n with
    | .fail err => .error (.raw err)
    | .resp ok status statusText body =>
      if ok then .ok body
      else .error (.lib (.predictionTask
        ("Error getting prediction task status: " ++ toString status ++ " " ++
          statusText))))

/-- The `while` guard of `_waitForPredictionTaskCompletion`:
`timeoutSeconds === undefined || performance.now() - startTime <
timeoutSeconds * 1000`, with the elapsed time in milliseconds. -/
def underTimeout (timeoutMs : Option Nat) (elapsedMs : Nat) : Bool :=
  match timeoutMs with
  | none => true
  | some t => elapsedMs < t

/-- Outcome of the polling loop. -/
inductive WaitOutcome where
  | done (r : PredictionTaskStatusResponse)
  | failed (e : JsError)
  | timedOut
  | outOfFuel
deriving DecidableEq

/-- The polling loop of `_waitForPredictionTaskCompletion`.  `n` counts the
status calls made so far, `elapsedMs` the accumulated sleep time; the guard
is evaluated before every poll, including the first. -/
def waitAux (env : Env) (timeoutMs : Option Nat) (intervalMs : Nat) :
    Nat → Nat → Nat → List Endpoint × WaitOutcome
  | fuel, n, elapsedMs =>
    if underTimeout timeoutMs elapsedMs then
      match fuel with
      | 0 => ([], .outOfFuel)
      | fuel' + 1 =>
        match getStatus env n with
        | (tr, .error e) => (tr, .failed e)
        | (tr, .ok st) =>
          if isTaskComplete st.status then (tr, .done st)
          else
            let cont := waitAux env timeoutMs intervalMs fuel' (n + 1)
              (elapsedMs + intervalMs)
            (tr ++ cont.1, cont.2)
    else ([], .timedOut)

/-- `_waitForPredictionTaskCompletion` (classification.ts): poll until a
terminal status, raising `PredictionTaskError` when the timeout guard
fails. -/
def _waitForPredictionTaskCompletion (env : Env) (uuid : String) (fuel : Nat)
    (timeoutSeconds : Option Nat) (pollingIntervalMs : Nat) :
    List Endpoint × Except JsError PredictionTaskStatusResponse :=
  match waitAux env (timeoutSeconds.map (· * 1000)) pollingIntervalMs fuel 0 0 with
  | (tr, .done st) => (tr, .ok st)
  | (tr, .failed e) => (tr, .error e)
  | (tr, .timedOut) =>
    (tr, .error (.lib (.predictionTask
      ("Prediction task " ++ uuid ++ " did not complete within " ++
        (match timeoutSeconds with
         | some t => toString t
         | none => "undefined") ++ " seconds."))))
  | (tr, .outOfFuel) => (tr, .error .modelOutOfFuel)

/-- `_getResultsUnified` (classification.ts): GET the results endpoint; a
transport rejection or a non-ok response becomes
`PredictionTaskResultsUnavailableError`; on success the body is augmented
with the task UUID. -/
def _getResultsUnified (env : Env) (uuid : String)
    (predictionType : PredictionType) :
    List Endpoint × Except JsError AugmentedResults :=
  ([.results],
    match env.resultsOutcome with
    | .fail err => .error (.lib (.resultsUnavailable
        ("Error getting prediction task results: " ++ err)))
    | .resp ok status statusText body =>
      if ok then .ok ⟨body.payload, uuid⟩
      else .error (.lib (.resultsUnavailable
        ("Error getting prediction task results: " ++ toString status ++ " " ++
          statusText))))

/-- `_predictUnified` (classification.ts): begin → upload the first signed
target (`signed_urls[0]`) → initiate → wait → fail on a failed terminal
state, else fetch results.  The first component is the trace of network
calls performed, in order. -/
def _predictUnified (env : Env) (media : MediaInst) (modelName : String)
    (fuel : Nat) (timeoutSeconds : Option Nat) :
    List Endpoint × Except JsError AugmentedResults :=
  match _beginPredictionTask env with
  | (t1, .error e) => (t1, .error e)
  | (t1, .ok beginResp) =>
    match _uploadMediaToPredictionTask env media beginResp.signed_urls.head? with
    | (t2, .error e) => (t1 ++ t2, .error e)
    | (t2, .ok _) =>
      match _initiatePredict env modelName beginResp.prediction_task_uuid with
      | (t3, .error e) => (t1 ++ t2 ++ t3, .error e)
      | (t3, .ok _) =>
        match _waitForPredictionTaskCompletion env
            beginResp.prediction_task_uuid fuel timeoutSeconds 1000 with
        | (t4, .error e) => (t1 ++ t2 ++ t3 ++ t4, .error e)
        | (t4, .ok status) =>
          if isTaskFailed status.status then
            (t1 ++ t2 ++ t3 ++ t4, .error (.lib (.predictionTask
              ("Prediction task failed: " ++ status.status))))
          else
            match _getResultsUnified env status.prediction_task_uuid
                beginResp.prediction_type with
            | (t5, r) => (t1 ++ t2 ++ t3 ++ t4 ++ t5, r)

-- ---------------------------------------------------------------------------
-- Concrete scenario environments
-- ---------------------------------------------------------------------------

/-- A status response for task `"abc"` with the given state string. -/
def stOf (s : String) : PredictionTaskStatusResponse :=
  ⟨"abc", .image, s⟩

/-- A begin response with one signed upload target. -/
def bDemo : PredictionTaskBeginResponse :=
  ⟨"abc", .image, [⟨"blob/abc", ⟨"https://u", [("k", "v")]⟩⟩]⟩

/-- An already-constructed image Media instance. -/
def mediaDemo : MediaInst :=
  ⟨.image, "image/png", none, ⟨[137, 80], "image/png"⟩⟩

/-- Every endpoint succeeds; the first poll reports `"predicted"`. -/
def envHappy : Env where
  beginOutcome := .resp true 200 "OK" bDemo
  uploadOutcome := .resp true 204 "No Content" ()
  initiateOutcome := .resp true 200 "OK" ()
  statusOutcome := fun _ => .resp true 200 "OK" (stOf "predicted")
  resultsOutcome := .resp true 200 "OK" ⟨"preds"⟩

/-- The status source never leaves `"pending"`. -/
def envPendingForever : Env :=
  { envHappy with statusOutcome := fun _ => .resp true 200 "OK" (stOf "pending") }

/-- The first poll reports the failed terminal state `"failed_invalid_input"`. -/
def envFailedState : Env :=
  { envHappy with
      statusOutcome := fun _ => .resp true 200 "OK" (stOf "failed_invalid_input") }

/-- The status fetch rejects at transport level. -/
def envStatusTransportFail : Env :=
  { envHappy with statusOutcome := fun _ => .fail "fetch failed" }

/-- The status endpoint answers 500. -/
def envStatus500 : Env :=
  { envHappy with
      statusOutcome := fun _ => .resp false 500 "Internal Server Error" (stOf "pending") }

/-- The begin endpoint answers 500. -/
def envBegin500 : Env :=
  { envHappy with beginOutcome := .resp false 500 "Internal Server Error" bDemo }

/-- The signed upload answers 500. -/
def envUpload500 : Env :=
  { envHappy with uploadOutcome := .resp false 500 "Internal Server Error" () }

/-- The predict endpoint answers 500. -/
def envInitiate500 : Env :=
  { envHappy with initiateOutcome := .resp false 500 "Internal Server Error" () }

/-- The results endpoint answers 500. -/
def envResults500 : Env :=
  { envHappy with resultsOutcome := .resp false 500 "Internal Server Error" ⟨""⟩ }

/-- The begin endpoint succeeds but reports an empty `signed_urls` array. -/
def envEmptySignedUrls : Env :=
  { envHappy with beginOutcome := .resp true 200 "OK" ⟨"abc", .image, []⟩ }

-- ---------------------------------------------------------------------------
-- Media subsystem: helper lemmas
-- ---------------------------------------------------------------------------

theorem constructForThis_ok_family (k : MediaKind) (b : Blob) (m : String)
    (nm : Option String) (mi : MediaInst)
    (h : constructForThis k b m nm = .ok mi) :
    mimeFamilyMatches mi.kind mi.mimeType = true := by
  cases k with
  | image =>
    simp only [constructForThis, newImage] at h
    split at h
    · cases h
      simpa [mimeFamilyMatches] using ‹isImageMime m = true›
    · simp at h
  | video =>
    simp only [constructForThis, newVideo] at h
    split at h
    · cases h
      simpa [mimeFamilyMatches] using ‹isVideoMime m = true›
    · simp at h

theorem fromUint8Array_isOk (k : MediaKind) (u8 : List Nat) (m : String)
    (nm : Option String) :
    (fromUint8Array k u8 m nm).isOk = mimeFamilyMatches k m := by
  by_cases h1 : isImageMime m <;> by_cases h2 : isVideoMime m <;>
    cases k <;>
    simp [fromUint8Array, isImageOrVideo, h1, h2, enforceFamilyOrThrow,
      constructForThis, newImage, newVideo, mimeFamilyMatches, Except.isOk,
      Except.toBool]

theorem fromArrayBuffer_isOk (k : MediaKind) (buf : List Nat) (m : String)
    (nm : Option String) :
    (fromArrayBuffer k buf m nm).isOk = mimeFamilyMatches k m := by
  by_cases h1 : isImageMime m <;> by_cases h2 : isVideoMime m <;>
    cases k <;>
    simp [fromArrayBuffer, isImageOrVideo, h1, h2, enforceFamilyOrThrow,
      constructForThis, newImage, newVideo, mimeFamilyMatches, Except.isOk,
      Except.toBool]

theorem fromBlob_isOk (k : MediaKind) (b : Blob) (nm : Option String)
    (mto : Option String) :
    (fromBlob k b nm mto).isOk = mimeFamilyMatches k (jsTrim (mto.getD b.type)) := by
  by_cases h1 : isImageMime (jsTrim (mto.getD b.type)) <;>
    by_cases h2 : isVideoMime (jsTrim (mto.getD b.type)) <;>
    cases k <;>
    simp [fromBlob, isImageOrVideo, h1, h2, enforceFamilyOrThrow,
      constructForThis, newImage, newVideo, mimeFamilyMatches, Except.isOk,
      Except.toBool]

theorem fromUint8Array_ok_family (k : MediaKind) (u8 : List Nat) (m : String)
    (nm : Option String) (mi : MediaInst)
    (h : fromUint8Array k u8 m nm = .ok mi) :
    mimeFamilyMatches mi.kind mi.mimeType = true := by
  simp only [fromUint8Array] at h
  split at h
  · simp at h
  · split at h
    · simp at h
    · exact constructForThis_ok_family _ _ _ _ _ h

theorem fromArrayBuffer_ok_family (k : MediaKind) (buf : List Nat) (m : String)
    (nm : Option String) (mi : MediaInst)
    (h : fromArrayBuffer k buf m nm = .ok mi) :
    mimeFamilyMatches mi.kind mi.mimeType = true := by
  simp only [fromArrayBuffer] at h
  split at h
  · simp at h
  · split at h
    · simp at h
    · exact constructForThis_ok_family _ _ _ _ _ h

theorem fromBlob_ok_family (k : MediaKind) (b : Blob) (nm : Option String)
    (mto : Option String) (mi : MediaInst)
    (h : fromBlob k b nm mto = .ok mi) :
    mimeFamilyMatches mi.kind mi.mimeType = true := by
  simp only [fromBlob] at h
  split at h
  · simp at h
  · split at h
    · simp at h
    · exact constructForThis_ok_family _ _ _ _ _ h

theorem fromBase64_ok_family (k : MediaKind) (b64 : String) (m : String)
    (nm : Option String) (hasAtob : Bool) (mi : MediaInst)
    (h : fromBase64 k b64 m nm hasAtob = .ok mi) :
    mimeFamilyMatches mi.kind mi.mimeType = true := by
  simp only [fromBase64] at h
  split at h
  · simp at h
  · split at h
    · simp at h
    · split at h
      · simp at h
      · exact fromUint8Array_ok_family _ _ _ _ _ h

-- ---------------------------------------------------------------------------
-- C2 / C3 / C7 / C9
-- ---------------------------------------------------------------------------

/-- C2: constructing an `Image` succeeds iff the MIME string matches
`image/*` and constructing a `Video` succeeds iff it matches `video/*`; any
other MIME string makes both variant constructors throw
`IncorrectMediaTypeError`; and every Media instance produced by any
construction path carries a MIME type of its variant's family, so no
wrong-family or unverified instance can exist. -/
theorem media_family_gate (b : Blob) (m : String) (nm : Option String) :
    ((newImage b m nm).isOk = isImageMime m)
    ∧ ((newVideo b m nm).isOk = isVideoMime m)
    ∧ (isImageMime m = false → isVideoMime m = false →
        newImage b m nm = .error (.lib (.incorrectMediaType
          ("Image requires image/* MIME; got \"" ++ m ++ "\"")))
        ∧ newVideo b m nm = .error (.lib (.incorrectMediaType
          ("Video requires video/* MIME; got \"" ++ m ++ "\""))))
    ∧ (∀ k u8 mi, fromUint8Array k u8 m nm = .ok mi →
        mimeFamilyMatches mi.kind mi.mimeType = true)
    ∧ (∀ k buf mi, fromArrayBuffer k buf m nm = .ok mi →
        mimeFamilyMatches mi.kind mi.mimeType = true)
    ∧ (∀ k mto mi, fromBlob k b nm mto = .ok mi →
        mimeFamilyMatches mi.kind mi.mimeType = true)
    ∧ (∀ k b64 hab mi, fromBase64 k b64 m nm hab = .ok mi →
        mimeFamilyMatches mi.kind mi.mimeType = true) := by
  refine ⟨?_, ?_, ?_, ?_, ?_, ?_, ?_⟩
  · by_cases h : isImageMime m <;> simp [newImage, h, Except.isOk, Except.toBool]
  · by_cases h : isVideoMime m <;> simp [newVideo, h, Except.isOk, Except.toBool]
  · intro h1 h2
    constructor <;> simp [newImage, newVideo, h1, h2]
  · intro k u8 mi h
    exact fromUint8Array_ok_family _ _ _ _ _ h
  · intro k buf mi h
    exact fromArrayBuffer_ok_family _ _ _ _ _ h
  · intro k mto mi h
    exact fromBlob_ok_family _ _ _ _ _ h
  · intro k b64 hab mi h
    exact fromBase64_ok_family _ _ _ _ _ _ h

/-- C2 witness: at the wrong-family MIME `"text/plain"` both constructors
throw the media-type error, and a successful `fromUint8Array` construction
carries the matching family. -/
theorem media_family_gate_witness :
    (isImageMime "text/plain" = false)
    ∧ (newImage ⟨[], ""⟩ "text/plain" none = .error (.lib (.incorrectMediaType
        "Image requires image/* MIME; got \"text/plain\"")))
    ∧ (newVideo ⟨[], ""⟩ "text/plain" none = .error (.lib (.incorrectMediaType
        "Video requires video/* MIME; got \"text/plain\"")))
    ∧ mimeFamilyMatches MediaKind.image "image/png" = true :=
  ⟨by decide,
   ((media_family_gate ⟨[], ""⟩ "text/plain" none).2.2.1 (by decide) (by decide)).1,
   ((media_family_gate ⟨[], ""⟩ "text/plain" none).2.2.1 (by decide) (by decide)).2,
   (media_family_gate ⟨[], ""⟩ "image/png" none).2.2.2.1 MediaKind.image [1]
     ⟨MediaKind.image, "image/png", none, ⟨[1], "image/png"⟩⟩ rfl⟩

/-- C3: a state is terminal iff it is successful or failed; successful is
exact equality with the `"predicted"` literal and failed is a prefix test
against `"failed"`; the three quoted literals classify as the claim says. -/
theorem status_classification :
    (∀ s, isTaskComplete s = (isTaskSuccessful s || isTaskFailed s))
    ∧ (∀ s, isTaskSuccessful s = (s == PREDICTED_STATUS))
    ∧ (∀ s, isTaskFailed s = jsStartsWith s FAILED_STATUS_LITERAL)
    ∧ PREDICTED_STATUS = "predicted"
    ∧ FAILED_STATUS_LITERAL = "failed"
    ∧ isTaskSuccessful "predicted" = true
    ∧ isTaskFailed "failed_timeout" = true
    ∧ isTaskSuccessful "pending" = false
    ∧ isTaskFailed "pending" = false :=
  ⟨fun _ => rfl, fun _ => rfl, fun _ => rfl, rfl, rfl,
   by decide, by decide, by decide, by decide⟩

/-- C7 counterexample: `Image.fromUint8Array` with the MIME string
`" image/png "` (surrounding whitespace) throws, while `Image.fromBlob`
with the same string as override succeeds — the byte-array path does not
trim, refuting uniform trimming across all entry paths. -/
theorem trim_not_uniform_counterexample :
    ((fromUint8Array MediaKind.image [0] " image/png " none).isOk = false)
    ∧ ((fromBlob MediaKind.image ⟨[0], ""⟩ none (some " image/png ")).isOk = true) := by
  constructor <;> decide

/-- C7 amended: only the blob path (and, in the source, the URL and
file-path paths) trims the resolved candidate MIME string;
`fromUint8Array` and `fromArrayBuffer` validate the MIME string exactly as
given, so `" image/png "` fails on those paths while the trimmed override
succeeds on `fromBlob`. -/
theorem trim_only_on_blob_paths (u8 : List Nat) (m : String)
    (nm : Option String) (b : Blob) (ov : String) :
    ((fromUint8Array MediaKind.image u8 m nm).isOk = isImageMime m)
    ∧ ((fromArrayBuffer MediaKind.image u8 m nm).isOk = isImageMime m)
    ∧ ((fromBlob MediaKind.image b nm (some ov)).isOk = isImageMime (jsTrim ov))
    ∧ (isImageMime " image/png " = false)
    ∧ (jsTrim " image/png " = "image/png") :=
  ⟨fromUint8Array_isOk MediaKind.image u8 m nm,
   fromArrayBuffer_isOk MediaKind.image u8 m nm,
   fromBlob_isOk MediaKind.image b nm (some ov),
   by decide, by decide⟩

/-- C9: constructing an image from raw bytes with type `image/png` and
materializing the payload returns exactly the input bytes. -/
theorem raw_bytes_roundtrip (b : List Nat) (nm : Option String) :
    (fromUint8Array MediaKind.image b "image/png" nm).map
      (fun mi => (toBlob mi).data) = .ok b :=
  rfl

-- ---------------------------------------------------------------------------
-- C8: the two base64 decode branches agree on valid input
-- ---------------------------------------------------------------------------

theorem isB64_of_ws_false (c : Char) (h : isB64 c = true) : isB64Ws c = false := by
  cases hb : isB64Ws c
  · rfl
  · exfalso
    have hval : b64Val c = none := by
      simp only [isB64Ws, Bool.or_eq_true, decide_eq_true_eq] at hb
      rcases hb with (((h1 | h1) | h1) | h1) | h1 <;> subst h1 <;> decide
    simp [isB64, hval] at h

theorem b64Val_pad_none : b64Val '=' = none := by decide

theorem b64Val_isSome_of_isB64 (c : Char) (h : isB64 c = true) :
    ∃ v, b64Val c = some v := by
  simp only [isB64, Option.isSome_iff_exists] at h
  exact h

theorem no_pad_in_b64 (c : Char) (h : isB64 c = true) : c ≠ '=' := by
  intro hc
  subst hc
  simp [isB64, b64Val_pad_none] at h

theorem decodeVals_eq_filterMap (l : List Char)
    (h : ∀ c ∈ l, isB64 c = true) :
    decodeVals l = some (l.filterMap b64Val) := by
  induction l with
  | nil => rfl
  | cons c cs ih =>
    obtain ⟨v, hv⟩ := b64Val_isSome_of_isB64 c (h c (by simp))
    have hrest := ih (fun x hx => h x (by simp [hx]))
    simp [decodeVals, List.filterMap_cons, hv, hrest]

theorem filterMap_replicate_pad (p : Nat) :
    (List.replicate p '=').filterMap b64Val = [] := by
  rw [List.filterMap_eq_nil_iff]
  intro a ha
  rw [List.eq_of_mem_replicate ha]
  exact b64Val_pad_none

theorem getLast?_ne_pad (body : List Char)
    (hmem : ∀ c ∈ body, isB64 c = true) : ¬ body.getLast? = some '=' := by
  intro h
  rw [List.getLast?_eq_some_iff] at h
  obtain ⟨ys, rfl⟩ := h
  exact no_pad_in_b64 '=' (hmem '=' (by simp)) rfl

theorem dropPad_no_pad (body : List Char)
    (hlast : ¬ body.getLast? = some '=') : dropPad body = body := by
  simp only [dropPad]
  rw [if_neg hlast, if_neg hlast]

theorem dropPad_one (body : List Char)
    (hlast : ¬ body.getLast? = some '=') : dropPad (body ++ ['=']) = body := by
  simp only [dropPad, List.getLast?_concat, List.dropLast_concat, if_true]
  rw [if_neg hlast]

theorem dropPad_two (body : List Char) : dropPad (body ++ ['=', '=']) = body := by
  have h2 : body ++ ['=', '='] = (body ++ ['=']) ++ ['='] := by simp
  rw [h2]
  simp only [dropPad, List.getLast?_concat, List.dropLast_concat, if_true]

theorem dropPad_body_pad (body : List Char) (p : Nat)
    (hmem : ∀ c ∈ body, isB64 c = true) (hp : p ≤ 2) :
    dropPad (body ++ List.replicate p '=') = body := by
  interval_cases p
  · simpa using dropPad_no_pad body (getLast?_ne_pad body hmem)
  · simpa using dropPad_one body (getLast?_ne_pad body hmem)
  · simpa using dropPad_two body

theorem filter_ws_body_pad (body : List Char) (p : Nat)
    (hmem : ∀ c ∈ body, isB64 c = true) :
    (body ++ List.replicate p '=').filter (fun c => !isB64Ws c)
      = body ++ List.replicate p '=' := by
  rw [List.filter_eq_self]
  intro a ha
  rcases List.mem_append.mp ha with hb | hr
  · simp [isB64_of_ws_false a (hmem a hb)]
  · rw [List.eq_of_mem_replicate hr]
    decide

theorem atob_buffer_core (body : List Char) (p : Nat)
    (hmem : ∀ c ∈ body, isB64 c = true) (hp : p ≤ 2)
    (hlen : (body.length + p) % 4 = 0) :
    atobDecode (body ++ List.replicate p '=')
      = some (bufferDecode (body ++ List.replicate p '=')) := by
  have hlenl : (body ++ List.replicate p '=').length = body.length + p := by
    simp
  have hbody4 : body.length % 4 ≠ 1 := by omega
  have hdec := decodeVals_eq_filterMap body hmem
  simp only [atobDecode, filter_ws_body_pad body p hmem, hlenl, hlen]
  simp only [Nat.zero_mod, beq_self_eq_true, if_true,
    dropPad_body_pad body p hmem hp]
  rw [if_neg (by simpa using hbody4)]
  simp only [hdec, Option.map_some', bufferDecode, List.filterMap_append,
    filterMap_replicate_pad, List.append_nil]

theorem body_pad_split (l : List Char) :
    l = b64Body l ++ List.replicate (b64Pad l) '=' := by
  have htd := List.takeWhile_append_dropWhile (fun c => c == '=') l.reverse
  have hrep : List.takeWhile (fun c => c == '=') l.reverse
      = List.replicate (b64Pad l) '=' := by
    rw [b64Pad]
    apply List.eq_replicate_length.mpr
    intro b hb
    simpa using List.mem_takeWhile_imp hb
  calc l = l.reverse.reverse := (List.reverse_reverse l).symm
    _ = (List.takeWhile (fun c => c == '=') l.reverse
          ++ List.dropWhile (fun c => c == '=') l.reverse).reverse := by
          rw [htd]
    _ = b64Body l ++ (List.takeWhile (fun c => c == '=') l.reverse).reverse := by
          rw [List.reverse_append, b64Body]
    _ = b64Body l ++ List.replicate (b64Pad l) '=' := by
          rw [hrep, List.reverse_replicate]

/-- C8: on every valid (canonically padded) base64 string the browser
branch (`atob` plus the `charCodeAt` loop) and the Node branch
(`Buffer.from(s, "base64")`) of `fromBase64` decode to identical bytes. -/
theorem base64_branches_agree (l : List Char) (h : validBase64 l = true) :
    atobDecode l = some (bufferDecode l) := by
  simp only [validBase64, Bool.and_eq_true, decide_eq_true_eq, beq_iff_eq,
    List.all_eq_true] at h
  obtain ⟨⟨hpad, hlen⟩, hall⟩ := h
  have hsplit := body_pad_split l
  have hlenl : l.length = (b64Body l).length + b64Pad l := by
    conv_lhs => rw [hsplit]
    simp
  rw [hsplit]
  exact atob_buffer_core (b64Body l) (b64Pad l) hall hpad (by omega)

/-- C8: for every valid base64 input string the two decode branches of
`fromBase64` produce the identical byte sequence, so the constructed Media
instance is identical whether or not a global `atob` decoder is
available. -/
theorem fromBase64_branch_independent (k : MediaKind) (b64 : String)
    (m : String) (nm : Option String) (h : validBase64 b64.data = true) :
    fromBase64 k b64 m nm true = fromBase64 k b64 m nm false := by
  have hd := base64_branches_agree b64.data h
  simp only [fromBase64, if_true, Bool.false_eq_true, if_false, hd]

/-- C8 witness: `"aGk="` is valid base64 and both branches build the same
image instance from it. -/
theorem fromBase64_branch_independent_witness :
    validBase64 "aGk=".data = true
    ∧ fromBase64 MediaKind.image "aGk=" "image/png" none true
        = fromBase64 MediaKind.image "aGk=" "image/png" none false :=
  ⟨by decide,
   fromBase64_branch_independent MediaKind.image "aGk=" "image/png" none (by decide)⟩

-- ---------------------------------------------------------------------------
-- Orchestration: trace lemmas
-- ---------------------------------------------------------------------------

theorem begin_trace (env : Env) :
    (_beginPredictionTask env).1 = [Endpoint.beginTask] := rfl

theorem upload_trace (env : Env) (media : MediaInst)
    (su : Option MediaUploadUrl) :
    ∀ e ∈ (_uploadMediaToPredictionTask env media su).1, e = Endpoint.upload := by
  cases su <;> simp [_uploadMediaToPredictionTask]

theorem initiate_trace (env : Env) (mn uuid : String) :
    (_initiatePredict env mn uuid).1 = [Endpoint.initiate] := rfl

theorem getStatus_trace (env : Env) (n : Nat) :
    (getStatus env n).1 = [Endpoint.status] := rfl

theorem waitAux_trace (env : Env) (tm : Option Nat) (iv : Nat) :
    ∀ (fuel n el : Nat), ∀ e ∈ (waitAux env tm iv fuel n el).1,
      e = Endpoint.status := by
  intro fuel
  induction fuel with
  | zero =>
    intro n el e he
    unfold waitAux at he
    split at he
    · simp at he
    · simp at he
  | succ f ih =>
    intro n el e he
    unfold waitAux at he
    split at he
    · rcases hg : getStatus env n with ⟨tr, r⟩
      have htr : tr = [Endpoint.status] := by
        have hh : (getStatus env n).1 = [Endpoint.status] := rfl
        rw [hg] at hh
        exact hh
      rw [hg] at he
      cases r with
      | error err =>
        subst htr
        simpa using he
      | ok st =>
        by_cases hc : isTaskComplete st.status
        · simp only [hc, if_true] at he
          subst htr
          simpa using he
        · simp only [hc, Bool.false_eq_true, if_false, List.mem_append] at he
          rcases he with he | he
          · subst htr
            simpa using he
          · exact ih _ _ e he
    · simp at he

theorem waitFor_trace_eq (env : Env) (uuid : String) (fuel : Nat)
    (ts : Option Nat) (iv : Nat) :
    (_waitForPredictionTaskCompletion env uuid fuel ts iv).1
      = (waitAux env (ts.map (fun t => t * 1000)) iv fuel 0 0).1 := by
  unfold _waitForPredictionTaskCompletion
  rcases h : waitAux env (ts.map (fun t => t * 1000)) iv fuel 0 0 with ⟨tr, o⟩
  cases o <;> simp

theorem waitFor_trace (env : Env) (uuid : String) (fuel : Nat)
    (ts : Option Nat) (iv : Nat) :
    ∀ e ∈ (_waitForPredictionTaskCompletion env uuid fuel ts iv).1,
      e = Endpoint.status := by
  intro e he
  rw [waitFor_trace_eq] at he
  exact waitAux_trace env (ts.map (fun t => t * 1000)) iv fuel 0 0 e he

-- ---------------------------------------------------------------------------
-- C1: timeout 0 forbids even the first status check
-- ---------------------------------------------------------------------------

/-- C1 counterexample: with a 0-second timeout and a status source stuck on
`"pending"`, the poll loop performs zero status checks — not one — before
raising the timeout `PredictionTaskError`. -/
theorem wait_timeout_zero_counterexample :
    ¬ ((_waitForPredictionTaskCompletion envPendingForever "abc" 5 (some 0)
        1000).1.count Endpoint.status = 1)
    ∧ (_waitForPredictionTaskCompletion envPendingForever "abc" 5 (some 0) 1000
        = ([], .error (.lib (.predictionTask
            "Prediction task abc did not complete within 0 seconds.")))) := by
  exact ⟨by decide, rfl⟩

theorem waitAux_head (env : Env) (tm : Option Nat) (iv fuel n el : Nat)
    (hu : underTimeout tm el = true) (hf : 0 < fuel) :
    (waitAux env tm iv fuel n el).1.head? = some Endpoint.status := by
  obtain ⟨f, rfl⟩ : ∃ f, fuel = f + 1 := ⟨fuel - 1, by omega⟩
  unfold waitAux
  rw [if_pos hu]
  cases hout : env.statusOutcome n with
  | fail err => simp [getStatus, hout]
  | resp ok s stx body =>
    cases ok with
    | false => simp [getStatus, hout]
    | true =>
      by_cases hc : isTaskComplete body.status <;> simp [getStatus, hout, hc]

/-- C1 amended: the timeout guard is evaluated before every poll, the first
included: with a timeout of 0 seconds the loop performs zero status checks
and raises the timeout `PredictionTaskError` immediately, while with any
positive timeout (and fuel) the first status check does occur. -/
theorem wait_timeout_zero_no_poll (env : Env) (uuid : String) (fuel : Nat)
    (interval : Nat) (t : Nat) (ht : 0 < t) (hf : 0 < fuel) :
    (_waitForPredictionTaskCompletion env uuid fuel (some 0) interval
      = ([], .error (.lib (.predictionTask
          ("Prediction task " ++ uuid ++ " did not complete within 0 seconds.")))))
    ∧ ((_waitForPredictionTaskCompletion env uuid fuel (some t) interval).1.head?
        = some Endpoint.status) := by
  constructor
  · have hz : waitAux env ((some 0).map (fun x => x * 1000)) interval fuel 0 0
        = ([], .timedOut) := by
      unfold waitAux
      rw [if_neg (by simp [underTimeout])]
    unfold _waitForPredictionTaskCompletion
    rw [hz]
    simp only [String.append_assoc]
    congr 2
  · rw [waitFor_trace_eq]
    apply waitAux_head
    · simp [underTimeout]
      omega
    · exact hf

/-- C1 witness: at the concrete always-pending environment, timeout 0 yields
the immediate timeout error with an empty call trace, and timeout 10 makes
the first network call a status check. -/
theorem wait_timeout_zero_no_poll_witness :
    (_waitForPredictionTaskCompletion envPendingForever "abc" 3 (some 0) 1000
      = ([], .error (.lib (.predictionTask
          "Prediction task abc did not complete within 0 seconds."))))
    ∧ ((_waitForPredictionTaskCompletion envPendingForever "abc" 3 (some 10)
        1000).1.head? = some Endpoint.status) :=
  ⟨(wait_timeout_zero_no_poll envPendingForever "abc" 3 1000 10 (by decide)
      (by decide)).1,
   (wait_timeout_zero_no_poll envPendingForever "abc" 3 1000 10 (by decide)
      (by decide)).2⟩

-- ---------------------------------------------------------------------------
-- C6: getStatus error kinds
-- ---------------------------------------------------------------------------

/-- C6 counterexample: a transport-level failure of the status fetch is not
caught by `getStatus` — the raw fetch rejection propagates, an error
outside the library's typed taxonomy, refuting that every `getStatus`
failure raises `PredictionTaskError`. -/
theorem getStatus_transport_unwrapped :
    getStatus envStatusTransportFail 0
      = ([Endpoint.status], .error (.raw "fetch failed"))
    ∧ JsError.inTaxonomy (.raw "fetch failed") = false :=
  ⟨rfl, rfl⟩

/-- C6 amended: a non-success HTTP response from the status endpoint raises
`PredictionTaskError`, but a transport-level failure of the underlying
fetch is not wrapped — it propagates as the raw platform error, because
`getStatus` alone has no try/catch around its fetch. -/
theorem getStatus_error_kinds (env : Env) (n : Nat) :
    (∀ s stx body, env.statusOutcome n = .resp false s stx body →
      getStatus env n = ([Endpoint.status], .error (.lib (.predictionTask
        ("Error getting prediction task status: " ++ toString s ++ " " ++ stx)))))
    ∧ (∀ err, env.statusOutcome n = .fail err →
      getStatus env n = ([Endpoint.status], .error (.raw err))) := by
  constructor
  · intro s stx body h
    simp [getStatus, h]
  · intro err h
    simp [getStatus, h]

/-- C6 witness: a 500 status response yields the `PredictionTaskError`
message, and a transport rejection yields the raw error. -/
theorem getStatus_error_kinds_witness :
    getStatus envStatus500 0 = ([Endpoint.status], .error (.lib (.predictionTask
      "Error getting prediction task status: 500 Internal Server Error")))
    ∧ getStatus envStatusTransportFail 1
        = ([Endpoint.status], .error (.raw "fetch failed")) :=
  ⟨(getStatus_error_kinds envStatus500 0).1 500 "Internal Server Error"
      (stOf "pending") rfl,
   (getStatus_error_kinds envStatusTransportFail 1).2 "fetch failed" rfl⟩

-- ---------------------------------------------------------------------------
-- C4: failed terminal state aborts before the results fetch
-- ---------------------------------------------------------------------------

/-- C4: whenever the polling stage returns a terminal state matching the
failed prefix, `_predictUnified` fails with a `PredictionTaskError` whose
message carries the failed state string, and the results endpoint is never
called. -/
theorem predict_failed_state_no_results (env : Env) (media : MediaInst)
    (mn : String) (fuel : Nat) (ts : Option Nat)
    (b : PredictionTaskBeginResponse) (st : PredictionTaskStatusResponse)
    (h1 : (_beginPredictionTask env).2 = .ok b)
    (h2 : (_uploadMediaToPredictionTask env media b.signed_urls.head?).2 = .ok ())
    (h3 : (_initiatePredict env mn b.prediction_task_uuid).2 = .ok ())
    (h4 : (_waitForPredictionTaskCompletion env b.prediction_task_uuid fuel ts
        1000).2 = .ok st)
    (h5 : isTaskFailed st.status = true) :
    (_predictUnified env media mn fuel ts).2
        = .error (.lib (.predictionTask
            ("Prediction task failed: " ++ st.status)))
    ∧ Endpoint.results ∉ (_predictUnified env media mn fuel ts).1 := by
  rcases hb : _beginPredictionTask env with ⟨t1, r1⟩
  rw [hb] at h1
  simp only at h1
  subst h1
  rcases hu : _uploadMediaToPredictionTask env media b.signed_urls.head? with ⟨t2, r2⟩
  rw [hu] at h2
  simp only at h2
  subst h2
  rcases hi : _initiatePredict env mn b.prediction_task_uuid with ⟨t3, r3⟩
  rw [hi] at h3
  simp only at h3
  subst h3
  rcases hw : _waitForPredictionTaskCompletion env b.prediction_task_uuid fuel
      ts 1000 with ⟨t4, r4⟩
  rw [hw] at h4
  simp only at h4
  subst h4
  have hP : _predictUnified env media mn fuel ts
      = (t1 ++ t2 ++ t3 ++ t4, .error (.lib (.predictionTask
          ("Prediction task failed: " ++ st.status)))) := by
    unfold _predictUnified
    simp only [hb, hu, hi, hw, h5, if_true]
  refine ⟨by rw [hP], ?_⟩
  rw [hP]
  intro hmem
  have ht1 : t1 = [Endpoint.beginTask] := by
    have hh := begin_trace env
    rw [hb] at hh
    exact hh
  have ht2 : ∀ e ∈ t2, e = Endpoint.upload := by
    have hh := upload_trace env media b.signed_urls.head?
    rw [hu] at hh
    exact hh
  have ht3 : t3 = [Endpoint.initiate] := by
    have hh := initiate_trace env mn b.prediction_task_uuid
    rw [hi] at hh
    exact hh
  have ht4 : ∀ e ∈ t4, e = Endpoint.status := by
    have hh := waitFor_trace env b.prediction_task_uuid fuel ts 1000
    rw [hw] at hh
    exact hh
  simp only [List.mem_append] at hmem
  rcases hmem with ((hm | hm) | hm) | hm
  · rw [ht1] at hm
    simp at hm
  · have := ht2 _ hm
    simp at this
  · rw [ht3] at hm
    simp at hm
  · have := ht4 _ hm
    simp at this

/-- C4 witness: with the first poll reporting `"failed_invalid_input"`, the
top-level call fails with the `PredictionTaskError` carrying that state and
the trace contains no results call. -/
theorem predict_failed_state_no_results_witness :
    (_predictUnified envFailedState mediaDemo "model" 5 none).2
        = .error (.lib (.predictionTask
            "Prediction task failed: failed_invalid_input"))
    ∧ Endpoint.results ∉ (_predictUnified envFailedState mediaDemo "model" 5 none).1 :=
  predict_failed_state_no_results envFailedState mediaDemo "model" 5 none
    bDemo (stOf "failed_invalid_input") rfl rfl rfl rfl (by decide)

-- ---------------------------------------------------------------------------
-- C5: per-stage error kinds, no later-stage network call
-- ---------------------------------------------------------------------------

/-- C5: a non-success HTTP response at a stage makes the top-level call fail
with that stage's designated error kind, and no network call of any later
stage is performed: begin → `PredictionTaskBeginError` (trace stops at the
begin call), upload → `PredictionUploadError`, initiate →
`PredictionTaskError`, results → `PredictionTaskResultsUnavailableError`. -/
theorem stage_error_kinds (env : Env) (media : MediaInst) (mn : String)
    (fuel : Nat) (ts : Option Nat) :
    (∀ s stx b, env.beginOutcome = .resp false s stx b →
      _predictUnified env media mn fuel ts
        = ([Endpoint.beginTask], .error (.lib (.predictionTaskBegin
            ("Error beginning prediction task: " ++ toString s ++ " " ++ stx)))))
    ∧ (∀ s1 stx1 b u s stx, env.beginOutcome = .resp true s1 stx1 b →
        b.signed_urls.head? = some u → env.uploadOutcome = .resp false s stx () →
      _predictUnified env media mn fuel ts
        = ([Endpoint.beginTask, Endpoint.upload], .error (.lib (.predictionUpload
            ("Error uploading media to prediction task: " ++ toString s ++ " "
              ++ stx)))))
    ∧ (∀ s1 stx1 b u s stx, env.beginOutcome = .resp true s1 stx1 b →
        b.signed_urls.head? = some u → env.uploadOutcome = .resp true 204 "No Content" () →
        env.initiateOutcome = .resp false s stx () →
      _predictUnified env media mn fuel ts
        = ([Endpoint.beginTask, Endpoint.upload, Endpoint.initiate],
           .error (.lib (.predictionTask
            ("Error initiating prediction: " ++ toString s ++ " " ++ stx)))))
    ∧ (∀ b st s stx rp, (_beginPredictionTask env).2 = .ok b →
        (_uploadMediaToPredictionTask env media b.signed_urls.head?).2 = .ok () →
        (_initiatePredict env mn b.prediction_task_uuid).2 = .ok () →
        (_waitForPredictionTaskCompletion env b.prediction_task_uuid fuel ts
          1000).2 = .ok st →
        isTaskFailed st.status = false →
        env.resultsOutcome = .resp false s stx rp →
      (_predictUnified env media mn fuel ts).2
        = .error (.lib (.resultsUnavailable
            ("Error getting prediction task results: " ++ toString s ++ " "
              ++ stx)))) := by
  refine ⟨?_, ?_, ?_, ?_⟩
  · intro s stx b h
    unfold _predictUnified _beginPredictionTask
    simp only [h, Bool.false_eq_true, if_false]
  · intro s1 stx1 b u s stx hb hhead hup
    unfold _predictUnified _beginPredictionTask _uploadMediaToPredictionTask
    simp only [hb, if_true, hhead, hup, Bool.false_eq_true, if_false]
    rfl
  · intro s1 stx1 b u s stx hb hhead hup hini
    unfold _predictUnified _beginPredictionTask _uploadMediaToPredictionTask
      _initiatePredict
    simp only [hb, if_true, hhead, hup, hini, Bool.false_eq_true, if_false]
    rfl
  · intro b st s stx rp h1 h2 h3 h4 hnf hres
    rcases hb : _beginPredictionTask env with ⟨t1, r1⟩
    rw [hb] at h1
    simp only at h1
    subst h1
    rcases hu : _uploadMediaToPredictionTask env media b.signed_urls.head? with ⟨t2, r2⟩
    rw [hu] at h2
    simp only at h2
    subst h2
    rcases hi : _initiatePredict env mn b.prediction_task_uuid with ⟨t3, r3⟩
    rw [hi] at h3
    simp only at h3
    subst h3
    rcases hw : _waitForPredictionTaskCompletion env b.prediction_task_uuid
        fuel ts 1000 with ⟨t4, r4⟩
    rw [hw] at h4
    simp only at h4
    subst h4
    unfold _predictUnified _getResultsUnified
    simp only [hb, hu, hi, hw, hnf, Bool.false_eq_true, if_false, hres]

/-- C5 witness: the four concrete 500-answering environments produce the
four designated error kinds with the later stages absent from the trace. -/
theorem stage_error_kinds_witness :
    (_predictUnified envBegin500 mediaDemo "model" 5 none
      = ([Endpoint.beginTask], .error (.lib (.predictionTaskBegin
          "Error beginning prediction task: 500 Internal Server Error"))))
    ∧ (_predictUnified envUpload500 mediaDemo "model" 5 none
      = ([Endpoint.beginTask, Endpoint.upload], .error (.lib (.predictionUpload
          "Error uploading media to prediction task: 500 Internal Server Error"))))
    ∧ (_predictUnified envInitiate500 mediaDemo "model" 5 none
      = ([Endpoint.beginTask, Endpoint.upload, Endpoint.initiate],
         .error (.lib (.predictionTask
          "Error initiating prediction: 500 Internal Server Error"))))
    ∧ ((_predictUnified envResults500 mediaDemo "model" 5 none).2
      = .error (.lib (.resultsUnavailable
          "Error getting prediction task results: 500 Internal Server Error"))) :=
  ⟨(stage_error_kinds envBegin500 mediaDemo "model" 5 none).1
      500 "Internal Server Error" bDemo rfl,
   (stage_error_kinds envUpload500 mediaDemo "model" 5 none).2.1
      200 "OK" bDemo ⟨"blob/abc", ⟨"https://u", [("k", "v")]⟩⟩
      500 "Internal Server Error" rfl rfl rfl,
   (stage_error_kinds envInitiate500 mediaDemo "model" 5 none).2.2.1
      200 "OK" bDemo ⟨"blob/abc", ⟨"https://u", [("k", "v")]⟩⟩
      500 "Internal Server Error" rfl rfl rfl rfl,
   (stage_error_kinds envResults500 mediaDemo "model" 5 none).2.2.2
      bDemo (stOf "predicted") 500 "Internal Server Error" ⟨""⟩
      rfl rfl rfl rfl (by decide) rfl⟩

-- ---------------------------------------------------------------------------
-- C10: empty signed_urls array
-- ---------------------------------------------------------------------------

/-- C10: when the begin call succeeds with an empty `signed_urls` array,
`_predictUnified` reads index 0 without a guard and hands the undefined
element to the upload step, which fails with a raw runtime `TypeError`
(reading `presigned_post_request` of `undefined`) before any upload fetch —
an error outside the library's typed taxonomy. -/
theorem empty_signed_urls_type_error (env : Env) (media : MediaInst)
    (mn : String) (fuel : Nat) (ts : Option Nat) (s : Nat) (stx : String)
    (b : PredictionTaskBeginResponse)
    (h1 : env.beginOutcome = .resp true s stx b)
    (h2 : b.signed_urls = []) :
    _predictUnified env media mn fuel ts
      = ([Endpoint.beginTask], .error (.typeError
          "Cannot read properties of undefined (reading presigned_post_request)"))
    ∧ JsError.inTaxonomy (.typeError
        "Cannot read properties of undefined (reading presigned_post_request)")
      = false := by
  refine ⟨?_, rfl⟩
  unfold _predictUnified _beginPredictionTask _uploadMediaToPredictionTask
  simp only [h1, if_true, h2, List.head?_nil, List.append_nil]

/-- C10 witness: the concrete environment whose begin response carries no
signed upload target produces the raw `TypeError` with only the begin call
in the trace. -/
theorem empty_signed_urls_type_error_witness :
    _predictUnified envEmptySignedUrls mediaDemo "model" 5 none
      = ([Endpoint.beginTask], .error (.typeError
          "Cannot read properties of undefined (reading presigned_post_request)"))
    ∧ JsError.inTaxonomy (.typeError
        "Cannot read properties of undefined (reading presigned_post_request)")
      = false :=
  empty_signed_urls_type_error envEmptySignedUrls mediaDemo "model" 5 none
    200 "OK" ⟨"abc", .image, []⟩ rfl rfl
